import Mathlib

/-
Shallow embedding of the libSGM sample programs
`sample/stereosgm_movie.cpp` (Batch Runner) and
`sample/stereosgm_test_time.cpp` (Benchmark Runner).

The two programs are straight-line `main` functions around an external
stereo-matching engine.  We embed the host-side control flow faithfully:
image loading, validation asserts, the frame loop, the disparity encoding
(`convertTo` with scale 100 followed by `setTo 0` on the invalid mask),
the write with its try/catch, and the benchmark's warm-up/measurement
loop.  The external collaborators (imread results, wall-clock readings,
imwrite success) are inputs of the model, packaged in an environment
record.  Machine arithmetic that matters (the CV_16U saturation in
`convertTo`) is made explicit on ℤ.
-/

namespace LibSGMSamples

/-- Minimal model of a loaded `cv::Mat`: the fields the samples' control
flow inspects (`rows`, `cols`, `type()`).  Pixel data does not influence
control flow in either program, so it is not part of this record; the
Disparity Encoder is modelled separately on explicit grids of samples. -/
structure Img where
  rows : ℤ
  cols : ℤ
  typ : ℤ
deriving DecidableEq, Repr

/-- OpenCV depth code for 8-bit unsigned single-channel (`CV_8U`). -/
def CV_8U : ℤ := 0

/-- OpenCV depth code for 16-bit unsigned single-channel (`CV_16U`). -/
def CV_16U : ℤ := 2

/-- OpenCV depth code for 16-bit signed single-channel (`CV_16S`). -/
def CV_16S : ℤ := 3

/-- The check of `ASSERT_MSG(I1.size() == I2.size() && I1.type() == I2.type(), ...)`
(stereosgm_movie.cpp line 66, stereosgm_test_time.cpp line 70). -/
def sameSizeType (a b : Img) : Bool :=
  a.rows == b.rows && a.cols == b.cols && a.typ == b.typ

/-- The check of `ASSERT_MSG(I1.type() == CV_8U || I1.type() == CV_16U, ...)`
(stereosgm_movie.cpp line 67; the equivalent if-block in
stereosgm_test_time.cpp lines 71-77). -/
def supportedDepth (a : Img) : Bool :=
  a.typ == CV_8U || a.typ == CV_16U

/-- The check of `ASSERT_MSG(disp_size == 64 || disp_size == 128 || disp_size == 256, ...)`
(stereosgm_movie.cpp line 68, stereosgm_test_time.cpp line 79). -/
def validDispSize (d : ℤ) : Bool :=
  d == 64 || d == 128 || d == 256

/-- Environment of one Batch Runner invocation (stereosgm_movie.cpp):
the parsed command-line values and the external collaborators, namely
what `cv::imread` returns per frame index and side (`none` models an
empty Mat), whether `cv::imwrite` succeeds per frame, and the
`system_clock` readings in microseconds taken at `t1` (after both
uploads, before `sgm.execute`) and `t2` (after `cudaDeviceSynchronize`). -/
structure BatchEnv where
  start_number : ℤ
  total_number : ℤ
  disp_size : ℤ
  readL : ℤ → Option Img
  readR : ℤ → Option Img
  writeOk : ℤ → Bool
  tStart : ℤ → ℚ
  tEnd : ℤ → ℚ

/-- Both `imread` calls for frame `n` produced a non-empty image:
the negation of the in-loop break condition `I1.empty() || I2.empty()`
(stereosgm_movie.cpp line 91). -/
def pairReadable (env : BatchEnv) (n : ℤ) : Bool :=
  (env.readL n).isSome && (env.readR n).isSome

/-- The pre-loop validation of stereosgm_movie.cpp lines 62-68: read the
pair at `start_number`, require both non-empty, same size and type,
supported depth.  `ASSERT_MSG` (from sample_common.h, not under src/) is
modelled from the spec: a failed assert is a fatal abort with non-zero
exit, so validation returning `false` means the run never reaches the
frame loop. -/
def firstPairOk (env : BatchEnv) : Bool :=
  match env.readL env.start_number, env.readR env.start_number with
  | some a, some b => sameSizeType a b && supportedDepth a
  | _, _ => false

/-- All four pre-loop asserts of stereosgm_movie.cpp lines 65-68. -/
def batchValidation (env : BatchEnv) : Bool :=
  firstPairOk env && validDispSize env.disp_size

/-- The frame loop of stereosgm_movie.cpp lines 87-141, by recursion on
the remaining iteration count (the C++ guard is
`frame_no - start_number < total_number`, so the loop runs at most
`total_number.toNat` iterations).  Each executed iteration re-reads the
pair at `frame_no`; if either side is empty the loop breaks, otherwise
the frame is uploaded, matched, downloaded, encoded and written, with
the `imwrite` outcome recorded.  Returns one `(frame_no, write
succeeded)` record per fully processed frame, in execution order. -/
def batchLoop (env : BatchEnv) : ℤ → ℕ → List (ℤ × Bool)
  | _, 0 => []
  | n, k + 1 =>
    if pairReadable env n then
      (n, env.writeOk n) :: batchLoop env (n + 1) k
    else []

/-- The frame records produced by a full run of stereosgm_movie.cpp:
empty when the pre-loop validation aborts the process. -/
def batchFrames (env : BatchEnv) : List (ℤ × Bool) :=
  if batchValidation env then
    batchLoop env env.start_number env.total_number.toNat
  else []

/-- Frame indices processed by the Batch Runner, in execution order. -/
def batchProcessed (env : BatchEnv) : List ℤ :=
  (batchFrames env).map Prod.fst

/-- Frame indices whose encoded output file was written successfully. -/
def batchWritten (env : BatchEnv) : List ℤ :=
  ((batchFrames env).filter Prod.snd).map Prod.fst

/-- Frame indices whose `imwrite` threw: the catch block of
stereosgm_movie.cpp lines 136-138 logs them to `std::cerr` and the loop
continues. -/
def batchFailedWrites (env : BatchEnv) : List ℤ :=
  ((batchFrames env).filter (fun p => !p.2)).map Prod.fst

/-- Outcome of a run: `aborted` models a failed `ASSERT_MSG`
(process terminated, modelled from the spec as fatal with non-zero
status), `completed` models reaching `return 0`. -/
inductive RunResult
  | aborted
  | completed
deriving DecidableEq, Repr

/-- Whether the Batch Runner run aborts in validation or reaches
`return 0` (stereosgm_movie.cpp line 143). -/
def batchResult (env : BatchEnv) : RunResult :=
  if batchValidation env then .completed else .aborted

/-- Process exit status of the Batch Runner.  `return 0` on completion;
the non-zero exit of a failed assert is modelled from the spec
(EXIT_FAILURE, taken as 1). -/
def batchExit (env : BatchEnv) : ℤ :=
  if batchValidation env then 0 else 1

/-
Disparity Encoder (stereosgm_movie.cpp lines 113-120).
The host disparity Mat is CV_16S; the code runs
  `disparity.convertTo(output_disparity, CV_16U, 100.0)`
which computes `saturate_cast<ushort>(cvRound(d * 100.0))` per sample
(exact-integer product, so the rounding is identity and only the
saturation to the 0..65535 range acts), then
  `output_disparity.setTo(0, disparity == invalid_disp)`
which forces the samples whose source equals the sentinel to 0.
-/

/-- Saturation of `saturate_cast<ushort>`: clamp an integer into the
unsigned 16-bit range 0..65535. -/
def saturate_u16 (x : ℤ) : ℤ :=
  if x < 0 then 0 else if 65535 < x then 65535 else x

/-- One sample of `disparity.convertTo(output_disparity, CV_16U, 100.0)`:
multiply by the fixed precision factor 100 and saturate to CV_16U. -/
def convertToSample (d : ℤ) : ℤ :=
  saturate_u16 (100 * d)

/-- One sample of the full encoder: `convertTo` with scale 100 followed by
`setTo 0` on the mask `disparity == invalid_disp`.  Per pixel the two
passes compose to: sentinel samples become 0, all others are the
saturated scaled value. -/
def encodePixel (invalid_disp d : ℤ) : ℤ :=
  if d == invalid_disp then 0 else convertToSample d

/-- The whole encoder on a disparity map, modelled as a row-major grid of
signed samples: both `convertTo` and `setTo` act pixelwise on grids of
the same shape, so the output grid maps `encodePixel` over the input. -/
def encodeMap (invalid_disp : ℤ) (m : List (List ℤ)) : List (List ℤ) :=
  m.map (fun row => row.map (encodePixel invalid_disp))

/-
Benchmark Runner (stereosgm_test_time.cpp).
-/

/-- `const int WARMUP_RUNS = 20` (stereosgm_test_time.cpp line 102). -/
def WARMUP_RUNS : ℕ := 20

/-- `const int MEASUREMENT_RUNS = 50` (stereosgm_test_time.cpp line 103). -/
def MEASUREMENT_RUNS : ℕ := 50

/-- Environment of one Benchmark Runner invocation
(stereosgm_test_time.cpp): the parsed command-line values, the single
pair of `imread` results at `start_number`, and the elapsed
microseconds (`duration_cast<microseconds>(t2 - t1).count()`, an
integer) that iteration `i` of the timing loop observes for
`sgm.execute` plus `cudaDeviceSynchronize`. -/
structure BenchEnv where
  disp_size : ℤ
  readL : Option Img
  readR : Option Img
  dur : ℕ → ℤ

/-- The pre-loop validation of stereosgm_test_time.cpp lines 66-79: both
images non-empty, same size and type, supported depth, `disp_size` in
the supported set.  As in the Batch Runner, a failed check is a fatal
exit (`ASSERT_MSG` modelled from the spec; the depth case uses an
explicit `std::exit(EXIT_FAILURE)` in this file). -/
def benchValidation (env : BenchEnv) : Bool :=
  match env.readL, env.readR with
  | some a, some b =>
    sameSizeType a b && supportedDepth a && validDispSize env.disp_size
  | _, _ => false

/-- Per-iteration record of the timing loop (stereosgm_test_time.cpp
lines 110-124): one entry per `sgm.execute` call, in order, marking
whether the iteration's duration was accumulated (`i >= WARMUP_RUNS`). -/
def benchIterMeasured : List Bool :=
  (List.range (WARMUP_RUNS + MEASUREMENT_RUNS)).map (fun i => WARMUP_RUNS ≤ i)

/-- The accumulator `total_duration_us` after the timing loop: starts at
0, and each iteration `i` adds `dur i` exactly when `i >= WARMUP_RUNS`. -/
def benchTotalUs (env : BenchEnv) : ℤ :=
  (List.range (WARMUP_RUNS + MEASUREMENT_RUNS)).foldl
    (fun acc i => if WARMUP_RUNS ≤ i then acc + env.dur i else acc) 0

/-- `average_time_us = total_duration_us / MEASUREMENT_RUNS` followed by
`average_time_ms = average_time_us / 1000.0`
(stereosgm_test_time.cpp lines 127-128), in exact arithmetic. -/
def averageTimeMs (env : BenchEnv) : ℚ :=
  ((benchTotalUs env : ℚ) / (MEASUREMENT_RUNS : ℚ)) / 1000

/-- The figure printed by
`std::fixed << std::setprecision(2) << average_time_ms`: the stream
formatting renders the average to two decimal places, i.e. as a whole
number of hundredths of a millisecond, rounding to the nearest. -/
def reportedCentiMs (env : BenchEnv) : ℤ :=
  round (averageTimeMs env * 100)

/-- Full Benchmark Runner outcome: `none` when validation aborts the
process before the timing loop, otherwise the iteration records and the
accumulated microseconds. -/
def benchRun (env : BenchEnv) : Option (List Bool × ℤ) :=
  if benchValidation env then some (benchIterMeasured, benchTotalUs env) else none

/-
Statement-order traces, for the temporal claims.  Each constructor is one
observable step of the straight-line code; a trace is the list of steps a
run performs, cut short at a failed assert.
-/

/-- Observable steps of the two `main` functions, in source order. -/
inductive Ev
  | loadFirstPair
  | checkReadable
  | checkCompat
  | checkDepth
  | checkDispSize
  | createEngine
  | allocDeviceBuffer
  | uploadImages
  | enterLoop
  | abortRun
deriving DecidableEq, Repr

/-- The first pair was read and both sides have the same size and type
(the condition of the assert at stereosgm_movie.cpp line 66). -/
def firstSame (env : BatchEnv) : Bool :=
  match env.readL env.start_number, env.readR env.start_number with
  | some a, some b => sameSizeType a b
  | _, _ => false

/-- The first left image has a supported depth (the condition of the
assert at stereosgm_movie.cpp line 67). -/
def firstDepthOk (env : BatchEnv) : Bool :=
  match env.readL env.start_number with
  | some a => supportedDepth a
  | _ => false

/-- Statement-order trace of stereosgm_movie.cpp `main` up to the frame
loop: imread of the first pair (line 62-63), the four asserts in order
(lines 65-68), `sgm::StereoSGM` construction (line 79), the three
`device_buffer` allocations (line 81), then the loop.  A failed assert
truncates the trace with `abortRun`. -/
def movieTrace (env : BatchEnv) : List Ev :=
  [.loadFirstPair, .checkReadable] ++
  if pairReadable env env.start_number then
    if firstSame env then
      .checkCompat ::
      (if firstDepthOk env then
        .checkDepth ::
        (if validDispSize env.disp_size then
          [.checkDispSize, .createEngine,
           .allocDeviceBuffer, .allocDeviceBuffer, .allocDeviceBuffer,
           .enterLoop]
        else [.abortRun])
      else [.abortRun])
    else [.abortRun]
  else [.abortRun]

/-- Both benchmark images were read non-empty (the condition of the
assert at stereosgm_test_time.cpp line 69). -/
def benchReadable (env : BenchEnv) : Bool :=
  env.readL.isSome && env.readR.isSome

/-- The benchmark pair has matching size and type (the condition of the
assert at stereosgm_test_time.cpp line 70). -/
def benchSame (env : BenchEnv) : Bool :=
  match env.readL, env.readR with
  | some a, some b => sameSizeType a b
  | _, _ => false

/-- The benchmark left image has a supported depth (the condition of the
if-block at stereosgm_test_time.cpp lines 71-77). -/
def benchDepthOk (env : BenchEnv) : Bool :=
  match env.readL with
  | some a => supportedDepth a
  | _ => false

/-- Statement-order trace of stereosgm_test_time.cpp `main` up to the
timing loop: imread of the single pair (lines 66-67), the checks in
order (lines 69-79), engine construction (line 89), the three
`device_buffer` allocations (line 91), the two one-time uploads
(lines 94-95), then the loop. -/
def timeTrace (env : BenchEnv) : List Ev :=
  [.loadFirstPair, .checkReadable] ++
  if benchReadable env then
    if benchSame env then
      .checkCompat ::
      (if benchDepthOk env then
        .checkDepth ::
        (if validDispSize env.disp_size then
          [.checkDispSize, .createEngine,
           .allocDeviceBuffer, .allocDeviceBuffer, .allocDeviceBuffer,
           .uploadImages, .enterLoop]
        else [.abortRun])
      else [.abortRun])
    else [.abortRun]
  else [.abortRun]

/-- Observable steps of one iteration of the Batch Runner frame loop
(stereosgm_movie.cpp lines 89-138), in source order. -/
inductive FEv
  | loadPair
  | uploadLeft
  | uploadRight
  | timerStart
  | execute
  | deviceSync
  | timerStop
  | downloadResult
  | encodeOutput
  | persistOutput
deriving DecidableEq, Repr

/-- The statement order of one processed frame: imread (89-90), the two
uploads (96-97), `t1` sampling (99), `sgm.execute` (101),
`cudaDeviceSynchronize` (102), `t2` sampling (104), download (108),
encoding (113-120), imwrite (131). -/
def frameEvents : List FEv :=
  [.loadPair, .uploadLeft, .uploadRight, .timerStart, .execute,
   .deviceSync, .timerStop, .downloadResult, .encodeOutput, .persistOutput]

/-- Elapsed microseconds of frame `n`'s timing window,
`duration_cast<microseconds>(t2 - t1).count()` with `t1` taken at
`timerStart` and `t2` at `timerStop` (stereosgm_movie.cpp line 105). -/
def frameDurationUs (env : BatchEnv) (n : ℤ) : ℚ :=
  env.tEnd n - env.tStart n

/-- The per-frame figure `fps = 1e6 / duration` printed in the progress
line (stereosgm_movie.cpp lines 106, 133-134). -/
def frameFps (env : BatchEnv) (n : ℤ) : ℚ :=
  1000000 / frameDurationUs env n

/-
Characterization of the frame loop: the processed records form a
contiguous run of indices starting at the loop entry, cut off by fuel
exhaustion or the first unreadable pair.
-/

theorem batchLoop_spec (env : BatchEnv) :
    ∀ (k : ℕ) (n : ℤ), ∃ m : ℕ, m ≤ k ∧
      batchLoop env n k
        = (List.range m).map (fun (i : ℕ) => (n + (i : ℤ), env.writeOk (n + (i : ℤ)))) ∧
      (∀ j : ℕ, j < m → pairReadable env (n + (j : ℤ)) = true) ∧
      (m < k → pairReadable env (n + (m : ℤ)) = false) := by
  intro k
  induction k with
  | zero =>
    intro n
    refine ⟨0, le_refl 0, by simp [batchLoop], ?_, ?_⟩
    · intro j hj; omega
    · intro h; omega
  | succ k ih =>
    intro n
    by_cases hr : pairReadable env n = true
    · obtain ⟨m, hmk, heq, hread, hstop⟩ := ih (n + 1)
      refine ⟨m + 1, by omega, ?_, ?_, ?_⟩
      · rw [show batchLoop env n (k + 1)
            = (n, env.writeOk n) :: batchLoop env (n + 1) k by
              simp [batchLoop, hr]]
        rw [heq, List.range_succ_eq_map, List.map_cons, List.map_map]
        congr 1
        · simp
        · apply List.map_congr_left
          intro i _
          have h1 : n + ((i + 1 : ℕ) : ℤ) = n + 1 + (i : ℤ) := by push_cast; ring
          simp only [Function.comp_apply, Nat.succ_eq_add_one, h1]
      · intro j hj
        cases j with
        | zero => simpa using hr
        | succ i =>
          have h1 : n + ((i + 1 : ℕ) : ℤ) = n + 1 + (i : ℤ) := by push_cast; ring
          rw [h1]
          exact hread i (by omega)
      · intro hlt
        have h1 : n + ((m + 1 : ℕ) : ℤ) = n + 1 + (m : ℤ) := by push_cast; ring
        rw [h1]
        exact hstop (by omega)
    · simp only [Bool.not_eq_true] at hr
      refine ⟨0, Nat.zero_le _, ?_, ?_, ?_⟩
      · simp [batchLoop, hr]
      · intro j hj; omega
      · intro _; simpa using hr

/-- C1: for every Batch Runner run with non-negative `start_number` and a
count `total_number`, the processed frames are exactly the contiguous
run `start_number, start_number + 1, ...` (strictly increasing), at most
`total_number` of them; when the run is not aborted in validation, every
processed index was readable and the loop cut off early only at an
unreadable pair; and the written output files never outnumber
`total_number`. -/
theorem batch_runner_frame_order (env : BatchEnv)
    (h0 : 0 ≤ env.start_number) (h1 : 0 ≤ env.total_number) :
    ((batchWritten env).length : ℤ) ≤ env.total_number ∧
    ∃ m : ℕ,
      batchProcessed env
        = (List.range m).map (fun (i : ℕ) => env.start_number + (i : ℤ)) ∧
      (m : ℤ) ≤ env.total_number ∧
      (batchResult env = .completed →
        (∀ j : ℕ, j < m → pairReadable env (env.start_number + (j : ℤ)) = true) ∧
        ((m : ℤ) < env.total_number →
          pairReadable env (env.start_number + (m : ℤ)) = false)) := by
  by_cases hv : batchValidation env = true
  · obtain ⟨m, hmk, heq, hread, hstop⟩ :=
      batchLoop_spec env env.total_number.toNat env.start_number
    have hfr : batchFrames env
        = (List.range m).map
            (fun (i : ℕ) => (env.start_number + (i : ℤ),
                       env.writeOk (env.start_number + (i : ℤ)))) := by
      rw [batchFrames, if_pos hv, heq]
    have hmt : (m : ℤ) ≤ env.total_number := by
      have := Int.toNat_of_nonneg h1
      omega
    constructor
    · have hlen : (batchWritten env).length ≤ (batchFrames env).length := by
        rw [batchWritten, List.length_map]
        exact List.length_filter_le _ _
      have hflen : (batchFrames env).length = m := by
        rw [hfr, List.length_map, List.length_range]
      omega
    · refine ⟨m, ?_, hmt, ?_⟩
      · rw [batchProcessed, hfr, List.map_map]
        rfl
      · intro _
        refine ⟨hread, ?_⟩
        intro hm
        apply hstop
        have := Int.toNat_of_nonneg h1
        omega
  · have hfr : batchFrames env = [] := by
      rw [batchFrames, if_neg hv]
    have hres : batchResult env = .aborted := by
      rw [batchResult, if_neg hv]
    constructor
    · simp [batchWritten, hfr]
      exact h1
    · refine ⟨0, by simp [batchProcessed, hfr], by simpa using h1, ?_⟩
      intro hc
      rw [hres] at hc
      cases hc

/-- Concrete batch environment: frames 0 and 1 readable as compatible
8-bit 4x4 pairs, frame 2 unreadable, five frames requested, all writes
succeeding. -/
def envC1 : BatchEnv where
  start_number := 0
  total_number := 5
  disp_size := 128
  readL := fun n => if n == 0 || n == 1 then some ⟨4, 4, CV_8U⟩ else none
  readR := fun n => if n == 0 || n == 1 then some ⟨4, 4, CV_8U⟩ else none
  writeOk := fun _ => true
  tStart := fun _ => 0
  tEnd := fun _ => 1000

theorem batch_runner_frame_order_witness :
    ((batchWritten envC1).length : ℤ) ≤ envC1.total_number ∧
    ∃ m : ℕ,
      batchProcessed envC1
        = (List.range m).map (fun (i : ℕ) => envC1.start_number + (i : ℤ)) ∧
      (m : ℤ) ≤ envC1.total_number ∧
      (batchResult envC1 = .completed →
        (∀ j : ℕ, j < m → pairReadable envC1 (envC1.start_number + (j : ℤ)) = true) ∧
        ((m : ℤ) < envC1.total_number →
          pairReadable envC1 (envC1.start_number + (m : ℤ)) = false)) :=
  batch_runner_frame_order envC1 (by decide) (by decide)

/-- Concrete batch environment for the mid-batch compatibility question:
frames 0, 1 and 2 readable, but at frame 1 the left image is 2x2 while
the right is 4x4 (an incompatible pair); three frames requested. -/
def envC2 : BatchEnv where
  start_number := 0
  total_number := 3
  disp_size := 128
  readL := fun n =>
    if n == 1 then some ⟨2, 2, CV_8U⟩
    else if n == 0 || n == 2 then some ⟨4, 4, CV_8U⟩
    else none
  readR := fun n =>
    if n == 0 || n == 1 || n == 2 then some ⟨4, 4, CV_8U⟩ else none
  writeOk := fun _ => true
  tStart := fun _ => 0
  tEnd := fun _ => 1000

/-- C2 counterexample: in `envC2` the pair at frame 1 is incompatible
(left 2x2 vs right 4x4), yet the Batch Runner does not abort: frame 1 is
processed like any other and the run completes, because the loop body of
stereosgm_movie.cpp checks only emptiness (line 91) and never re-checks
size or type after the first frame. -/
theorem batch_midloop_incompatible_processed :
    envC2.readL 1 = some ⟨2, 2, CV_8U⟩ ∧
    envC2.readR 1 = some ⟨4, 4, CV_8U⟩ ∧
    sameSizeType ⟨2, 2, CV_8U⟩ ⟨4, 4, CV_8U⟩ = false ∧
    batchProcessed envC2 = [0, 1, 2] ∧
    batchResult envC2 = .completed := by
  decide

/-- Shared helper: membership in the processed-frame records.  Given
that the first-frame validation passed, a record belongs to the run
exactly when its index lies in the requested range, its write flag is
the collaborator's answer for that index, and every frame from
`start_number` up to that index was readable. -/
theorem batchFrames_mem (env : BatchEnv)
    (hv : batchValidation env = true) (x : ℤ × Bool) :
    x ∈ batchFrames env ↔
      ∃ k : ℕ, (k : ℤ) < env.total_number ∧
        x = (env.start_number + (k : ℤ),
             env.writeOk (env.start_number + (k : ℤ))) ∧
        ∀ j : ℕ, j ≤ k → pairReadable env (env.start_number + (j : ℤ)) = true := by
  obtain ⟨m, hmk, heq, hread, hstop⟩ :=
    batchLoop_spec env env.total_number.toNat env.start_number
  have hfr : batchFrames env
      = (List.range m).map
          (fun (i : ℕ) => (env.start_number + (i : ℤ),
                     env.writeOk (env.start_number + (i : ℤ)))) := by
    rw [batchFrames, if_pos hv, heq]
  rw [hfr]
  simp only [List.mem_map, List.mem_range]
  constructor
  · rintro ⟨i, him, rfl⟩
    exact ⟨i, by omega, rfl, fun j hj => hread j (by omega)⟩
  · rintro ⟨k, hk, rfl, hall⟩
    refine ⟨k, ?_, rfl⟩
    by_contra hkm
    push_neg at hkm
    have hmtot : m < env.total_number.toNat := by omega
    have h1 := hstop hmtot
    have h2 := hall m (by omega)
    simp_all

/-- C2 amended: after the first frame the Batch Runner checks only
readability.  Given that the first-frame validation passed, a frame is
processed exactly when it lies in the requested range and every frame
from `start_number` up to it was readable — compatibility of the
mid-batch pair plays no role. -/
theorem batch_midloop_readability_only (env : BatchEnv)
    (hv : batchValidation env = true) (n : ℤ) :
    n ∈ batchProcessed env ↔
      ∃ k : ℕ, (k : ℤ) < env.total_number ∧ n = env.start_number + (k : ℤ) ∧
        ∀ j : ℕ, j ≤ k → pairReadable env (env.start_number + (j : ℤ)) = true := by
  rw [batchProcessed, List.mem_map]
  constructor
  · rintro ⟨p, hp, rfl⟩
    obtain ⟨k, hk, rfl, hall⟩ := (batchFrames_mem env hv p).mp hp
    exact ⟨k, hk, rfl, hall⟩
  · rintro ⟨k, hk, rfl, hall⟩
    refine ⟨(env.start_number + (k : ℤ),
             env.writeOk (env.start_number + (k : ℤ))), ?_, rfl⟩
    exact (batchFrames_mem env hv _).mpr ⟨k, hk, rfl, hall⟩

theorem batch_midloop_readability_only_witness :
    (1 : ℤ) ∈ batchProcessed envC2 :=
  (batch_midloop_readability_only envC2 (by decide) 1).mpr
    ⟨1, by decide, by decide, by decide⟩

/-- The spec's words for the encoding of a non-sentinel sample (claim
wording: the value `d * 100`, clamped only when it exceeds the unsigned
16-bit maximum).  Stated separately from the code-derived `encodePixel`
so the two can be compared. -/
def specClaimedScaledC3 (d : ℤ) : ℤ :=
  if 65535 < 100 * d then 65535 else 100 * d

/-- C3 counterexample: at the non-sentinel sample `d = -1` (with sentinel
-32768) the code produces 0, while the claimed value — `d * 100` with
clamping only above the maximum — is -100.  The `convertTo` saturation
also clamps below at 0, which the claim omits. -/
theorem encoder_claimed_scaling_fails_below_zero :
    ((-1 : ℤ) ≠ -32768) ∧
    encodePixel (-32768) (-1) = 0 ∧
    specClaimedScaledC3 (-1) = -100 ∧
    encodePixel (-32768) (-1) ≠ specClaimedScaledC3 (-1) := by
  decide

/-- C3 amended: for every non-sentinel sample `d`, the encoded value is
`d * 100` clamped to the unsigned 16-bit representable range on both
sides — to 65535 when the product exceeds the maximum and to 0 when the
product is negative. -/
theorem encoder_scales_and_clamps (invalid_disp d : ℤ)
    (hd : d ≠ invalid_disp) :
    encodePixel invalid_disp d = min (max (100 * d) 0) 65535 := by
  simp only [encodePixel, convertToSample, saturate_u16, beq_iff_eq, if_neg hd]
  split_ifs <;> omega

theorem encoder_scales_and_clamps_witness :
    encodePixel (-32768) 5 = min (max (100 * 5) 0) 65535 :=
  encoder_scales_and_clamps (-32768) 5 (by decide)

/-- C4: the encoded output has exactly the shape of the disparity map
(same number of rows, each row of the same length), and every sample
whose source equals the invalid sentinel is exactly 0 in the output. -/
theorem encoder_sentinel_zero_and_shape (invalid_disp : ℤ) (m : List (List ℤ)) :
    (encodeMap invalid_disp m).length = m.length ∧
    (∀ i : ℕ, ((encodeMap invalid_disp m).getD i []).length = (m.getD i []).length) ∧
    (∀ i j : ℕ, (m.getD i []).getD j invalid_disp = invalid_disp →
      ((encodeMap invalid_disp m).getD i []).getD j 0 = 0) := by
  refine ⟨by rw [encodeMap, List.length_map], ?_, ?_⟩
  · intro i
    rw [encodeMap, List.getD_eq_getElem?_getD, List.getD_eq_getElem?_getD,
      List.getElem?_map]
    cases h : m[i]? with
    | none => simp
    | some row => simp
  · intro i j hij
    have houter : (encodeMap invalid_disp m).getD i []
        = (m.getD i []).map (encodePixel invalid_disp) := by
      rw [encodeMap, List.getD_eq_getElem?_getD, List.getD_eq_getElem?_getD,
        List.getElem?_map]
      cases h : m[i]? <;> simp
    rw [houter, List.getD_eq_getElem?_getD, List.getElem?_map]
    cases h2 : (m.getD i [])[j]? with
    | none => simp
    | some d =>
      have hdd : (m.getD i []).getD j invalid_disp = d := by
        rw [List.getD_eq_getElem?_getD, h2, Option.getD_some]
      rw [hdd] at hij
      simp [encodePixel, hij]

theorem encoder_sentinel_zero_and_shape_witness :
    ((encodeMap (-1) [[-1, 3]]).getD 0 []).getD 0 0 = 0 :=
  (encoder_sentinel_zero_and_shape (-1) [[-1, 3]]).2.2 0 0 (by decide)

/-- C9: a negative non-sentinel disparity sample is encoded as 0 — the
scaled product is negative and the CV_16U saturation clamps it at the
lower bound — so in the encoded output it cannot be told apart from a
pixel masked as invalid (also 0). -/
theorem encoder_negative_collapses_to_invalid (invalid_disp d : ℤ)
    (hneg : d < 0) (hd : d ≠ invalid_disp) :
    encodePixel invalid_disp d = 0 ∧
    encodePixel invalid_disp d = encodePixel invalid_disp invalid_disp := by
  have h0 : encodePixel invalid_disp d = 0 := by
    simp only [encodePixel, convertToSample, saturate_u16, beq_iff_eq, if_neg hd]
    have : 100 * d < 0 := by omega
    simp [this]
  refine ⟨h0, ?_⟩
  rw [h0]
  simp [encodePixel]

theorem encoder_negative_collapses_to_invalid_witness :
    encodePixel (-32768) (-1) = 0 ∧
    encodePixel (-32768) (-1) = encodePixel (-32768) (-32768) :=
  encoder_negative_collapses_to_invalid (-32768) (-1) (by decide) (by decide)

/-- Helper: a left fold over `List.range` that conditionally adds equals
the starting accumulator plus the sum over the indices satisfying the
condition. -/
theorem foldl_add_ite_range (f : ℕ → ℤ) (p : ℕ → Prop) [DecidablePred p] :
    ∀ (nn : ℕ) (acc : ℤ),
      (List.range nn).foldl (fun a i => if p i then a + f i else a) acc
        = acc + ∑ i in (Finset.range nn).filter p, f i := by
  intro nn
  induction nn with
  | zero => intro acc; simp
  | succ k ih =>
    intro acc
    rw [List.range_succ, List.foldl_append]
    simp only [List.foldl_cons, List.foldl_nil]
    rw [ih]
    by_cases hp : p k
    · rw [if_pos hp, Finset.range_succ, Finset.filter_insert, if_pos hp,
        Finset.sum_insert (by simp)]
      ring
    · rw [if_neg hp, Finset.range_succ, Finset.filter_insert, if_neg hp]

/-- Helper: the measured iterations of the benchmark loop are exactly the
indices 20 to 69. -/
theorem benchFilter_eq_Ico :
    (Finset.range (WARMUP_RUNS + MEASUREMENT_RUNS)).filter
        (fun i => WARMUP_RUNS ≤ i)
      = Finset.Ico WARMUP_RUNS (WARMUP_RUNS + MEASUREMENT_RUNS) := by
  ext i
  simp only [Finset.mem_filter, Finset.mem_range, Finset.mem_Ico]
  omega

/-- C5: a Benchmark Runner run that passes the initial validation
performs exactly 70 matching calls — 20 warm-up iterations followed by
50 measurement iterations — the accumulated time is the sum of exactly
the 50 measured durations, the reported average is their arithmetic mean
converted to milliseconds, and the printed two-decimal figure is within
half a hundredth of a millisecond of that mean. -/
theorem benchmark_iterations_and_average (env : BenchEnv)
    (hv : benchValidation env = true) :
    benchRun env = some (benchIterMeasured, benchTotalUs env) ∧
    benchIterMeasured.length = WARMUP_RUNS + MEASUREMENT_RUNS ∧
    benchIterMeasured
      = List.replicate WARMUP_RUNS false ++ List.replicate MEASUREMENT_RUNS true ∧
    benchTotalUs env
      = ∑ i in Finset.Ico WARMUP_RUNS (WARMUP_RUNS + MEASUREMENT_RUNS), env.dur i ∧
    averageTimeMs env
      = ((∑ i in Finset.Ico WARMUP_RUNS (WARMUP_RUNS + MEASUREMENT_RUNS),
          env.dur i : ℤ) : ℚ) / 50 / 1000 ∧
    |((reportedCentiMs env : ℚ) / 100) - averageTimeMs env| ≤ 1 / 200 := by
  have htot : benchTotalUs env
      = ∑ i in Finset.Ico WARMUP_RUNS (WARMUP_RUNS + MEASUREMENT_RUNS), env.dur i := by
    rw [benchTotalUs, foldl_add_ite_range, benchFilter_eq_Ico, zero_add]
  refine ⟨by rw [benchRun, if_pos hv], by decide, by decide, htot, ?_, ?_⟩
  · rw [averageTimeMs, htot]
    norm_num [MEASUREMENT_RUNS]
  · have hx : ((reportedCentiMs env : ℚ) / 100) - averageTimeMs env
        = ((round (averageTimeMs env * 100) : ℚ) - averageTimeMs env * 100) / 100 := by
      rw [reportedCentiMs]; ring
    rw [hx, abs_div]
    have h2 : |(100 : ℚ)| = 100 := by norm_num
    rw [h2]
    have h3 := abs_sub_round (averageTimeMs env * 100)
    have h4 : |((round (averageTimeMs env * 100) : ℤ) : ℚ)
        - averageTimeMs env * 100| ≤ 1 / 2 := by
      rw [abs_sub_comm]
      exact h3
    linarith

/-- Concrete benchmark environment: a compatible 8-bit 4x4 pair, valid
disparity range, every iteration taking 1000 microseconds. -/
def envC5 : BenchEnv where
  disp_size := 128
  readL := some ⟨4, 4, CV_8U⟩
  readR := some ⟨4, 4, CV_8U⟩
  dur := fun _ => 1000

theorem benchmark_iterations_and_average_witness :
    benchRun envC5 = some (benchIterMeasured, benchTotalUs envC5) ∧
    benchIterMeasured.length = WARMUP_RUNS + MEASUREMENT_RUNS ∧
    benchIterMeasured
      = List.replicate WARMUP_RUNS false ++ List.replicate MEASUREMENT_RUNS true ∧
    benchTotalUs envC5
      = ∑ i in Finset.Ico WARMUP_RUNS (WARMUP_RUNS + MEASUREMENT_RUNS), envC5.dur i ∧
    averageTimeMs envC5
      = ((∑ i in Finset.Ico WARMUP_RUNS (WARMUP_RUNS + MEASUREMENT_RUNS),
          envC5.dur i : ℤ) : ℚ) / 50 / 1000 ∧
    |((reportedCentiMs envC5 : ℚ) / 100) - averageTimeMs envC5| ≤ 1 / 200 :=
  benchmark_iterations_and_average envC5 (by decide)

/-- C6: in both programs, a `disp_size` outside 64, 128, 256 makes the
run abort fatally with no device buffer ever allocated; and in every run
whatsoever, any device-buffer allocation in the statement trace comes
only at or after the `disp_size` check (nothing before the check
allocates). -/
theorem disp_size_checked_before_alloc (envM : BatchEnv) (envT : BenchEnv) :
    (validDispSize envM.disp_size = false →
      batchResult envM = .aborted ∧ Ev.allocDeviceBuffer ∉ movieTrace envM) ∧
    (validDispSize envT.disp_size = false →
      benchRun envT = none ∧ Ev.allocDeviceBuffer ∉ timeTrace envT) ∧
    Ev.allocDeviceBuffer
      ∉ (movieTrace envM).takeWhile (fun e => e != Ev.checkDispSize) ∧
    Ev.allocDeviceBuffer
      ∉ (timeTrace envT).takeWhile (fun e => e != Ev.checkDispSize) := by
  refine ⟨?_, ?_, ?_, ?_⟩
  · intro h
    constructor
    · rw [batchResult, batchValidation, h]
      simp
    · rw [movieTrace, h]
      split_ifs <;> first | exact (by assumption : False).elim | decide
  · intro h
    constructor
    · have hbv : benchValidation envT = false := by
        rw [benchValidation]
        cases envT.readL <;> cases envT.readR <;> simp [h]
      rw [benchRun, hbv]
      simp
    · rw [timeTrace, h]
      split_ifs <;> first | exact (by assumption : False).elim | decide
  · rw [movieTrace]
    split_ifs <;> decide
  · rw [timeTrace]
    split_ifs <;> decide

/-- Concrete batch environment with an unsupported `disp_size` of 100. -/
def envC6M : BatchEnv where
  start_number := 0
  total_number := 1
  disp_size := 100
  readL := fun _ => some ⟨4, 4, CV_8U⟩
  readR := fun _ => some ⟨4, 4, CV_8U⟩
  writeOk := fun _ => true
  tStart := fun _ => 0
  tEnd := fun _ => 1000

/-- Concrete benchmark environment with an unsupported `disp_size` of 100. -/
def envC6T : BenchEnv where
  disp_size := 100
  readL := some ⟨4, 4, CV_8U⟩
  readR := some ⟨4, 4, CV_8U⟩
  dur := fun _ => 1000

theorem disp_size_checked_before_alloc_witness :
    (batchResult envC6M = .aborted ∧
      Ev.allocDeviceBuffer ∉ movieTrace envC6M) ∧
    (benchRun envC6T = none ∧
      Ev.allocDeviceBuffer ∉ timeTrace envC6T) :=
  ⟨(disp_size_checked_before_alloc envC6M envC6T).1 (by decide),
   (disp_size_checked_before_alloc envC6M envC6T).2.1 (by decide)⟩

/-- C7: the per-frame FPS figure is 1,000,000 divided by the elapsed
microseconds between the two clock samples, and in the statement order
of a frame iteration both uploads come strictly before the window opens
at `timerStart`, the window up to `timerStop` contains exactly the
matching call and its blocking device synchronization, and the result
download and the encoding come strictly after the window closes. -/
theorem frame_fps_times_matching_window_only (env : BatchEnv) (n : ℤ) :
    frameFps env n = 1000000 / (env.tEnd n - env.tStart n) ∧
    frameEvents.indexOf FEv.uploadLeft < frameEvents.indexOf FEv.timerStart ∧
    frameEvents.indexOf FEv.uploadRight < frameEvents.indexOf FEv.timerStart ∧
    frameEvents.indexOf FEv.timerStop < frameEvents.indexOf FEv.downloadResult ∧
    frameEvents.indexOf FEv.timerStop < frameEvents.indexOf FEv.encodeOutput ∧
    frameEvents.indexOf FEv.encodeOutput < frameEvents.indexOf FEv.persistOutput ∧
    (frameEvents.drop (frameEvents.indexOf FEv.timerStart + 1)).takeWhile
        (fun e => e != FEv.timerStop)
      = [FEv.execute, FEv.deviceSync] :=
  ⟨rfl, by decide, by decide, by decide, by decide, by decide, by decide⟩

/-- C8: a persistence failure at frame `n` is recorded in the failure
log, produces no output file for `n`, and does not stop the loop: with
the next frame readable and still in range, frame `n + 1` is processed,
and the run still exits with status 0. -/
theorem write_failure_does_not_stop_loop (env : BatchEnv) (n : ℤ)
    (hv : batchValidation env = true)
    (hge : env.start_number ≤ n)
    (hlt : n + 1 < env.start_number + env.total_number)
    (hread : ∀ k : ℤ, env.start_number ≤ k → k ≤ n + 1 →
      pairReadable env k = true)
    (hw : env.writeOk n = false) :
    n ∈ batchFailedWrites env ∧ n ∉ batchWritten env ∧
    (n + 1) ∈ batchProcessed env ∧ batchExit env = 0 := by
  obtain ⟨k, hkeq⟩ : ∃ k : ℕ, n = env.start_number + (k : ℤ) :=
    ⟨(n - env.start_number).toNat, by omega⟩
  refine ⟨?_, ?_, ?_, ?_⟩
  · rw [batchFailedWrites]
    apply List.mem_map.mpr
    refine ⟨(n, false), ?_, rfl⟩
    apply List.mem_filter.mpr
    refine ⟨?_, by simp⟩
    apply (batchFrames_mem env hv _).mpr
    refine ⟨k, by omega, ?_, ?_⟩
    · rw [← hkeq, hw]
    · intro j hj
      exact hread _ (by omega) (by omega)
  · intro hmem
    rw [batchWritten] at hmem
    obtain ⟨p, hp, hpn⟩ := List.mem_map.mp hmem
    obtain ⟨hpf, hps⟩ := List.mem_filter.mp hp
    obtain ⟨k2, hk2, hpe, hall2⟩ := (batchFrames_mem env hv p).mp hpf
    rw [hpe] at hpn hps
    simp only at hpn
    rw [hpn] at hps
    rw [hw] at hps
    cases hps
  · rw [batchProcessed]
    apply List.mem_map.mpr
    refine ⟨(env.start_number + ((k + 1 : ℕ) : ℤ),
             env.writeOk (env.start_number + ((k + 1 : ℕ) : ℤ))), ?_, ?_⟩
    · apply (batchFrames_mem env hv _).mpr
      refine ⟨k + 1, by push_cast; omega, rfl, ?_⟩
      intro j hj
      exact hread _ (by omega) (by omega)
    · simp only
      push_cast
      omega
  · rw [batchExit, if_pos hv]

/-- Concrete batch environment for the write-failure scenario: frames
0-2 readable and compatible, three frames requested, but the write for
frame 0 fails while frames 1 and 2 write fine. -/
def envC8 : BatchEnv where
  start_number := 0
  total_number := 3
  disp_size := 128
  readL := fun n => if 0 ≤ n && n ≤ 2 then some ⟨4, 4, CV_8U⟩ else none
  readR := fun n => if 0 ≤ n && n ≤ 2 then some ⟨4, 4, CV_8U⟩ else none
  writeOk := fun n => n != 0
  tStart := fun _ => 0
  tEnd := fun _ => 1000

theorem write_failure_does_not_stop_loop_witness :
    (0 : ℤ) ∈ batchFailedWrites envC8 ∧ (0 : ℤ) ∉ batchWritten envC8 ∧
    (0 + 1 : ℤ) ∈ batchProcessed envC8 ∧ batchExit envC8 = 0 :=
  write_failure_does_not_stop_loop envC8 0 (by decide) (by decide) (by decide)
    (by
      intro k h1 h2
      have h1z : (0 : ℤ) ≤ k := h1
      have hk : k = 0 ∨ k = 1 := by omega
      rcases hk with rfl | rfl <;> decide)
    (by decide)

/-- Helper: the one-shot first-frame validation is the conjunction of
the three Boolean checks used by the statement trace. -/
theorem firstPairOk_eq (env : BatchEnv) :
    firstPairOk env
      = (pairReadable env env.start_number && firstSame env && firstDepthOk env) := by
  rw [firstPairOk, pairReadable, firstSame, firstDepthOk]
  cases env.readL env.start_number <;> cases env.readR env.start_number <;> simp

/-- C10: even with `total_number` zero or negative the Batch Runner
processes no frame and writes nothing, yet its trace still opens by
loading and checking the pair at `start_number` before any loop could be
entered, and a missing, mismatched or unsupported first pair still
aborts the run fatally with a non-zero exit. -/
theorem zero_total_still_validates_first_pair (env : BatchEnv)
    (htot : env.total_number ≤ 0) :
    batchProcessed env = [] ∧ batchWritten env = [] ∧
    (movieTrace env).take 2 = [Ev.loadFirstPair, Ev.checkReadable] ∧
    (firstPairOk env = false →
      batchResult env = .aborted ∧ batchExit env ≠ 0 ∧
      Ev.abortRun ∈ movieTrace env ∧ Ev.enterLoop ∉ movieTrace env) := by
  have hfr : batchFrames env = [] := by
    rw [batchFrames]
    split_ifs with h
    · have h0 : env.total_number.toNat = 0 := by omega
      rw [h0]
      rfl
    · rfl
  refine ⟨by rw [batchProcessed, hfr]; rfl,
          by rw [batchWritten, hfr]; rfl,
          by rw [movieTrace]; rfl, ?_⟩
  intro hbad
  have hv : batchValidation env = false := by
    rw [batchValidation, hbad]
    rfl
  refine ⟨by rw [batchResult, hv]; rfl, by rw [batchExit, hv]; decide, ?_⟩
  have hsplit := firstPairOk_eq env
  rw [hbad] at hsplit
  rw [movieTrace]
  by_cases h1 : pairReadable env env.start_number = true
  · by_cases h2 : firstSame env = true
    · by_cases h3 : firstDepthOk env = true
      · rw [h1, h2, h3] at hsplit
        simp at hsplit
      · simp only [Bool.not_eq_true] at h3
        rw [h1, h2, h3]
        simp
    · simp only [Bool.not_eq_true] at h2
      rw [h1, h2]
      simp
  · simp only [Bool.not_eq_true] at h1
    rw [h1]
    simp

/-- Concrete batch environment with `total_number = 0` and an unreadable
first pair. -/
def envC10 : BatchEnv where
  start_number := 0
  total_number := 0
  disp_size := 128
  readL := fun _ => none
  readR := fun _ => none
  writeOk := fun _ => true
  tStart := fun _ => 0
  tEnd := fun _ => 1000

theorem zero_total_still_validates_first_pair_witness :
    batchProcessed envC10 = [] ∧ batchResult envC10 = .aborted :=
  ⟨(zero_total_still_validates_first_pair envC10 (by decide)).1,
   ((zero_total_still_validates_first_pair envC10 (by decide)).2.2.2 (by decide)).1⟩

end LibSGMSamples
